import Mathlib

/-!
Verification of the real-time market-state and pricing core of the
Dynamic-Price-Prediction-Model repository.

Python floats are modelled as exact rationals (`ℚ`) for the arithmetic
pricing/simulator code, and as real numbers (`ℝ`) for the trigonometric
Haversine code in `src/backend/main.py`.  Each definition mirrors one
function of the Python sources; the theorems below settle the spec's
claims against these definitions.
-/

/-- Python clamp idiom `max(lo, min(hi, x))` used throughout the sources. -/
def clampQ (lo hi x : ℚ) : ℚ := max lo (min hi x)

/-- First stage of `DataSimulator._calculate_surge`
(src/data_simulator.py lines 130-138): the demand/supply part of the
surge.  The source is an `if/elif/elif` chain, so exactly one branch
fires; the branches are mutually exclusive, not cumulative. -/
def surge_base (r : ℚ) : ℚ :=
  if 1 < r then 1 + (r - 1) * 0.8
  else if 0.8 < r then 1 + (r - 0.8) * 0.5
  else if 0.6 < r then 1 + (r - 0.6) * 0.25
  else 1

/-- Second stage of `_calculate_surge` (lines 140-142): `base_surge *= 1.1`
when the weather factor exceeds 1.2. -/
def surge_weather (w b : ℚ) : ℚ := if 1.2 < w then b * 1.1 else b

/-- Third stage of `_calculate_surge` (lines 144-146): `base_surge *= 1.05`
when the traffic factor exceeds 1.4. -/
def surge_traffic (t b : ℚ) : ℚ := if 1.4 < t then b * 1.05 else b

/-- `DataSimulator._calculate_surge(demand_supply_ratio, weather_factor,
traffic_factor)` (src/data_simulator.py lines 128-148), ending in
`min(3.0, max(1.0, base_surge))`. -/
def calculate_surge (r w t : ℚ) : ℚ :=
  min 3 (max 1 (surge_traffic t (surge_weather w (surge_base r))))

lemma calculate_surge_bounds (r w t : ℚ) :
    1 ≤ calculate_surge r w t ∧ calculate_surge r w t ≤ 3 := by
  unfold calculate_surge
  exact ⟨le_min (by norm_num) (le_max_left _ _), min_le_left _ _⟩


/-- C2 counterexample: at ratio 1.8 (demand 1.8, supply 1.0, neutral weather
and traffic) the code's surge is NOT the claimed cumulative value
1.84 = 46/25: only the `ratio > 1.0` branch of the `if/elif` chain runs. -/
theorem surge_at_ratio_18_ne_184 :
    calculate_surge (9 / 5) 1 1 ≠ 46 / 25 := by
  norm_num [calculate_surge, surge_base, surge_weather, surge_traffic, min_def, max_def]

/-- C2 amended: at ratio 1.8 the `if/elif` chain fires only its first branch,
giving `1.0 + (1.8 - 1.0) * 0.8 = 1.64 = 41/25`, which the clamp to
`[1.0, 3.0]` leaves unchanged. -/
theorem surge_at_ratio_18_eq_164 :
    calculate_surge (9 / 5) 1 1 = 41 / 25 := by
  norm_num [calculate_surge, surge_base, surge_weather, surge_traffic, min_def, max_def]

/-- C5 counterexample: the surge multiplier is NOT monotone in the
demand/supply ratio.  Crossing the 1.0 breakpoint the `elif` chain switches
from `1 + (r - 0.8) * 0.5` to `1 + (r - 1) * 0.8`, and the value drops:
surge(1.0) = 1.1 while surge(1.1) = 1.08. -/
theorem surge_not_monotone_across_breakpoint :
    (1 : ℚ) ≤ 11 / 10 ∧
      ¬ calculate_surge 1 1 1 ≤ calculate_surge (11 / 10) 1 1 := by
  norm_num [calculate_surge, surge_base, surge_weather, surge_traffic, min_def, max_def]

lemma surge_base_mono (r1 r2 : ℚ) (h : r1 ≤ r2)
    (hint : r2 ≤ 0.6 ∨ (0.6 < r1 ∧ r2 ≤ 0.8) ∨ (0.8 < r1 ∧ r2 ≤ 1) ∨ 1 < r1) :
    surge_base r1 ≤ surge_base r2 := by
  unfold surge_base
  rcases hint with h1 | ⟨ha, hb⟩ | ⟨ha, hb⟩ | h1 <;> split_ifs <;> linarith

lemma surge_weather_mono (w b1 b2 : ℚ) (h : b1 ≤ b2) :
    surge_weather w b1 ≤ surge_weather w b2 := by
  unfold surge_weather
  split_ifs <;> linarith

lemma surge_traffic_mono (t b1 b2 : ℚ) (h : b1 ≤ b2) :
    surge_traffic t b1 ≤ surge_traffic t b2 := by
  unfold surge_traffic
  split_ifs <;> linarith

/-- C5 amended: the surge multiplier is monotone non-decreasing in the
demand/supply ratio only within each branch of the `if/elif` chain
(ratios both at most 0.6, both in (0.6, 0.8], both in (0.8, 1.0], or both
above 1.0); across the 0.8 and 1.0 breakpoints it can decrease. -/
theorem surge_monotone_within_branches (r1 r2 w t : ℚ) (h : r1 ≤ r2)
    (hint : r2 ≤ 0.6 ∨ (0.6 < r1 ∧ r2 ≤ 0.8) ∨ (0.8 < r1 ∧ r2 ≤ 1) ∨ 1 < r1) :
    calculate_surge r1 w t ≤ calculate_surge r2 w t := by
  unfold calculate_surge
  exact min_le_min le_rfl
    (max_le_max le_rfl
      (surge_traffic_mono t _ _ (surge_weather_mono w _ _ (surge_base_mono r1 r2 h hint))))

/-- Witness for C5 amended at ratios 1.2 ≤ 1.5, both above 1.0. -/
theorem surge_monotone_within_branches_witness :
    (6 / 5 : ℚ) ≤ 3 / 2 ∧
      calculate_surge (6 / 5) 1 1 ≤ calculate_surge (3 / 2) 1 1 :=
  ⟨by norm_num,
    surge_monotone_within_branches (6 / 5) (3 / 2) 1 1 (by norm_num)
      (Or.inr (Or.inr (Or.inr (by norm_num))))⟩

/-- Rush-hour stage of `DataSimulator._get_traffic_factor`
(src/data_simulator.py lines 109-113): `base_traffic = 1.0`, multiplied by
1.5 during 07-09 and 17-19. -/
def traffic_rush (hour : ℕ) : ℚ :=
  if (7 ≤ hour ∧ hour ≤ 9) ∨ (17 ≤ hour ∧ hour ≤ 19) then 1 * 1.5 else 1

/-- Weekend stage of `_get_traffic_factor` (lines 115-120): on weekend days
(`day_of_week >= 5`) the factor is multiplied by 1.2 in the afternoon
(12-16) or 1.3 in the evening (20-23). -/
def traffic_weekend (hour day : ℕ) (b : ℚ) : ℚ :=
  if 5 ≤ day then
    (if 12 ≤ hour ∧ hour ≤ 16 then b * 1.2
     else if 20 ≤ hour ∧ hour ≤ 23 then b * 1.3
     else b)
  else b

/-- Incident stage of `_get_traffic_factor` (lines 122-124): with 5%
probability the factor is multiplied by a `random.uniform(1.3, 2.0)` draw;
`incident` records whether the event fired and `m` the drawn multiplier. -/
def traffic_incident_step (incident : Bool) (m b : ℚ) : ℚ :=
  if incident then b * m else b

/-- `DataSimulator._get_traffic_factor(hour, day_of_week)`
(src/data_simulator.py lines 107-126).  The random draws are explicit
inputs; `noise` is the additive `np.random.normal(0, 0.1)` draw.  The
return value is `min(2.5, base_traffic + noise)` — clamped above only,
with no lower clamp. -/
def get_traffic_factor (hour day : ℕ) (incident : Bool) (m noise : ℚ) : ℚ :=
  min 2.5 (traffic_incident_step incident m (traffic_weekend hour day (traffic_rush hour)) + noise)

/-- The module-level demand/supply globals of src/app.py (lines 17-18),
mutated by the background simulation loop. -/
structure MarketGlobals where
  demand : ℚ
  supply : ℚ

/-- One tick's demand/supply update in `simulate_real_time_data`
(src/app.py lines 90-95): add the random delta, then clamp with
`max(0.1, min(1.0, _))`. -/
def tick_demand_supply (g : MarketGlobals) (dd ds : ℚ) : MarketGlobals :=
  ⟨clampQ 0.1 1 (g.demand + dd), clampQ 0.1 1 (g.supply + ds)⟩

/-- The sequence of global states committed by successive iterations of the
`simulate_real_time_data` loop, one per tick, for a given sequence of
random demand/supply deltas. -/
def sim_states (g : MarketGlobals) : List (ℚ × ℚ) → List MarketGlobals
  | [] => []
  | d :: rest => tick_demand_supply g d.1 d.2 :: sim_states (tick_demand_supply g d.1 d.2) rest

/-- The canonical clamp range [0.1, 1.0] that src/app.py applies to the
stored demand and supply levels. -/
def in_canonical_range (g : MarketGlobals) : Prop :=
  0.1 ≤ g.demand ∧ g.demand ≤ 1 ∧ 0.1 ≤ g.supply ∧ g.supply ≤ 1

lemma clampQ_mem (lo hi x : ℚ) (h : lo ≤ hi) :
    lo ≤ clampQ lo hi x ∧ clampQ lo hi x ≤ hi :=
  ⟨le_max_left _ _, max_le h (min_le_left _ _)⟩

lemma tick_in_range (g : MarketGlobals) (dd ds : ℚ) :
    in_canonical_range (tick_demand_supply g dd ds) := by
  have h1 := clampQ_mem 0.1 1 (g.demand + dd) (by norm_num)
  have h2 := clampQ_mem 0.1 1 (g.supply + ds) (by norm_num)
  exact ⟨h1.1, h1.2, h2.1, h2.2⟩

/-- C3 counterexample: the traffic factor is NOT kept inside [1.0, 2.5].
At hour 0 on a Monday with no incident and additive noise -1 the code
returns `min(2.5, 1.0 + (-1)) = 0 < 1`: only the upper end is clamped. -/
theorem traffic_factor_below_one_example :
    get_traffic_factor 0 0 false 1 (-1) < 1 := by
  norm_num [get_traffic_factor, traffic_rush, traffic_weekend,
    traffic_incident_step, min_def]

/-- C3 amended: after every tick of the src/app.py simulation loop the
stored demand and supply levels lie inside the canonical clamp range
[0.1, 1.0] (for every starting state and every sequence of random deltas),
and the traffic factor computed by `_get_traffic_factor` is at most 2.5;
its claimed lower bound 1.0 does not hold (the additive Gaussian noise is
unbounded below and the code clamps only from above). -/
theorem tick_invariant_and_traffic_upper_bound :
    (∀ (g : MarketGlobals) (deltas : List (ℚ × ℚ)),
        (sim_states g deltas).Forall in_canonical_range) ∧
      ∀ (hour day : ℕ) (incident : Bool) (m noise : ℚ),
        get_traffic_factor hour day incident m noise ≤ 2.5 := by
  constructor
  · intro g deltas
    induction deltas generalizing g with
    | nil => exact trivial
    | cons d rest ih =>
        rw [sim_states]
        exact (List.forall_cons _ _ _).mpr ⟨tick_in_range g d.1 d.2, ih _⟩
  · intro hour day incident m noise
    exact min_le_left _ _

/-- One element of randomness consumed by an iteration of the
`simulate_real_time_data` loop (src/app.py lines 88-116): the demand and
supply deltas, and whether the iteration's `socketio.emit` call completes
without raising (`emit_ok = false` models an exception inside the tick). -/
structure SimTickInput where
  dd : ℚ
  ds : ℚ
  emit_ok : Bool

/-- The `while True` loop of `simulate_real_time_data` (src/app.py lines
88-116).  The loop body contains NO try/except: demand and supply are
mutated in place first, then the emit runs; if it raises, the exception
propagates, so the loop (and its daemon thread) terminates with the
partially-advanced globals left in place.  The boolean result records
whether the thread is still alive after consuming the inputs. -/
def run_sim_loop (g : MarketGlobals) : List SimTickInput → MarketGlobals × Bool
  | [] => (g, true)
  | i :: rest =>
    if i.emit_ok then run_sim_loop (tick_demand_supply g i.dd i.ds) rest
    else (tick_demand_supply g i.dd i.ds, false)

/-- C4 counterexample: a tick whose emit raises leaves the globals ADVANCED
(demand moved from 0.5 to 0.6, not retained) and TERMINATES the loop (no
further ticks are scheduled), contradicting the catch-log-retain-continue
claim. -/
theorem failed_tick_advances_state_and_kills_loop :
    (run_sim_loop ⟨0.5, 0.5⟩ [⟨0.1, 0.05, false⟩]).1.demand ≠ 0.5 ∧
      (run_sim_loop ⟨0.5, 0.5⟩ [⟨0.1, 0.05, false⟩]).1.demand = 0.6 ∧
      (run_sim_loop ⟨0.5, 0.5⟩ [⟨0.1, 0.05, false⟩]).2 = false := by
  norm_num [run_sim_loop, tick_demand_supply, clampQ, min_def, max_def]

/-- C4 amended: an exception during a simulator tick is NOT caught: the
loop terminates immediately (the thread dies and no further ticks run),
and the demand/supply mutations already committed by the failing tick
remain in the stored globals. -/
theorem uncaught_tick_exception_behavior (g : MarketGlobals) (i : SimTickInput)
    (rest : List SimTickInput) (h : i.emit_ok = false) :
    run_sim_loop g (i :: rest) = (tick_demand_supply g i.dd i.ds, false) := by
  simp [run_sim_loop, h]

/-- Witness for C4 amended: a concrete failing tick. -/
theorem uncaught_tick_exception_behavior_witness :
    (⟨0.1, 0.05, false⟩ : SimTickInput).emit_ok = false ∧
      run_sim_loop ⟨0.5, 0.5⟩ [⟨0.1, 0.05, false⟩] =
        (tick_demand_supply ⟨0.5, 0.5⟩ 0.1 0.05, false) :=
  ⟨rfl, uncaught_tick_exception_behavior ⟨0.5, 0.5⟩ ⟨0.1, 0.05, false⟩ [] rfl⟩

/-- Python `round(x, 2)` on the exact-rational model of floats. -/
def round2 (x : ℚ) : ℚ := ((round (x * 100) : ℤ) : ℚ) / 100

/-- Python `round(x, 1)` on the exact-rational model of floats. -/
def round1 (x : ℚ) : ℚ := ((round (x * 10) : ℤ) : ℚ) / 10

/-- The `PricePredictor` object of src/app.py (lines 28-33): three rate
constants set in `__init__` plus the mutable `self.surge_multiplier`
field, initialised to 1.0 and overwritten on every `predict_price` call. -/
structure PricePredictor where
  base_fare : ℚ
  per_mile_rate : ℚ
  per_minute_rate : ℚ
  surge_multiplier : ℚ

/-- The demand/supply surge of `PricePredictor.predict_price`
(src/app.py lines 44-45): `max(0.8, min(2.0, 1.0 + (demand - supply) * 0.5))`. -/
def demand_supply_surge (dl sl : ℚ) : ℚ := max 0.8 (min 2 (1 + (dl - sl) * 0.5))

/-- C1 counterexample: the surge multiplier computed by
`PricePredictor.predict_price` (src/app.py line 45) is NOT bounded below
by 1.0.  At demand 0.1 and supply 1.0 — both inside the canonical clamp
range [0.1, 1.0] — the clamp `max(0.8, min(2.0, 1 + (0.1 - 1.0)*0.5))`
yields 0.8 < 1.0, and src/app.py reports exactly this value as
`surge_multiplier` in `/predict` and `/api/current-conditions`. -/
theorem app_surge_below_one_at_low_demand :
    demand_supply_surge 0.1 1 = 0.8 ∧ demand_supply_surge 0.1 1 < 1 := by
  norm_num [demand_supply_surge, min_def, max_def]

/-- C1 amended: the two surge implementations have different bounds.  The
simulator's `_calculate_surge` multiplier lies in [1.0, 3.0] for every
ratio, weather and traffic factor (hence for every valid snapshot); the
app's `PricePredictor.predict_price` surge is instead clamped to
[0.8, 2.0], and its lower bound 1.0 fails (it reaches 0.8 whenever supply
exceeds demand by at least 0.4). -/
theorem surge_bounds_per_implementation :
    (∀ r w t : ℚ, 1 ≤ calculate_surge r w t ∧ calculate_surge r w t ≤ 3) ∧
      ∀ dl sl : ℚ, 0.8 ≤ demand_supply_surge dl sl ∧ demand_supply_surge dl sl ≤ 2 := by
  refine ⟨calculate_surge_bounds, fun dl sl => ⟨le_max_left _ _, ?_⟩⟩
  exact max_le (by norm_num) (min_le_left _ _)

/-- `weather_multipliers` dict lookup with default 1.0
(src/app.py lines 48-54). -/
def weather_multipliers (w : String) : ℚ :=
  if w = "clear" then 1
  else if w = "rainy" then 1.1
  else if w = "snowy" then 1.3
  else if w = "stormy" then 1.2
  else 1

/-- `traffic_multipliers` dict lookup with default 1.0
(src/app.py lines 57-62). -/
def traffic_multipliers (t : String) : ℚ :=
  if t = "normal" then 1
  else if t = "heavy" then 1.15
  else if t = "congested" then 1.25
  else 1

/-- `time_multipliers` dict lookup with default 1.0
(src/app.py lines 65-71). -/
def time_multipliers (x : String) : ℚ :=
  if x = "day" then 1
  else if x = "rush_hour" then 1.2
  else if x = "night" then 1.1
  else if x = "early_morning" then 1.05
  else 1

/-- `PricePredictor.predict_price` (src/app.py lines 35-76).  Returns the
rounded final price together with the predictor object after the call,
because line 45 assigns `self.surge_multiplier` — the call is NOT
non-mutating. -/
def predict_price (p : PricePredictor) (distance_miles duration_minutes dl sl : ℚ)
    (weather traffic time_of_day : String) : ℚ × PricePredictor :=
  (round2 ((p.base_fare + distance_miles * p.per_mile_rate +
        duration_minutes * p.per_minute_rate) *
      demand_supply_surge dl sl * weather_multipliers weather *
      traffic_multipliers traffic * time_multipliers time_of_day),
   { p with surge_multiplier := demand_supply_surge dl sl })

/-- C7 counterexample: a pricing call CHANGES observable component state.
Starting from the freshly constructed predictor (stored surge 1.0), one
`predict_price` call with demand 1.0 and supply 0.1 overwrites the stored
`surge_multiplier` with 1.45, which `get_surge_multiplier` and the
`/api/current-conditions` endpoint then report. -/
theorem predict_price_mutates_predictor :
    (predict_price ⟨2.5, 1.5, 0.35, 1⟩ 1 10 1 0.1 "clear" "normal" "day").2.surge_multiplier ≠
      (⟨2.5, 1.5, 0.35, 1⟩ : PricePredictor).surge_multiplier := by
  norm_num [predict_price, demand_supply_surge, min_def, max_def]

/-- C7 amended: the returned price is a pure function of the call's
arguments and the predictor's rate constants — it does not depend on the
previously stored `surge_multiplier`, and the surge it applies is
recomputed fresh from the supplied demand/supply on every call — but the
call mutates the predictor, overwriting the stored `surge_multiplier`
with that freshly computed value. -/
theorem predict_price_pure_in_price_but_caches_surge
    (p : PricePredictor) (s1 s2 dist dur dl sl : ℚ) (w tr td : String) :
    (predict_price { p with surge_multiplier := s1 } dist dur dl sl w tr td).1 =
        (predict_price { p with surge_multiplier := s2 } dist dur dl sl w tr td).1 ∧
      (predict_price p dist dur dl sl w tr td).2 =
        { p with surge_multiplier := demand_supply_surge dl sl } :=
  ⟨rfl, rfl⟩

/-- The duration estimate of the `/predict` endpoint (src/app.py line 144):
`estimated_duration = distance_miles / 25 * 60`, minutes at 25 mph. -/
def estimated_duration (d : ℚ) : ℚ := d / 25 * 60

/-- C8 counterexample: the estimated duration is NOT floored at 1 minute
(nor rounded to an integer, nor dependent on a traffic factor): at
distance 0 the code yields 0 minutes, below the claimed minimum of 1. -/
theorem estimated_duration_zero_below_one_minute :
    estimated_duration 0 = 0 ∧ estimated_duration 0 < 1 := by
  norm_num [estimated_duration]

/-- C8 amended: the duration estimate is the raw value
`distance_miles / 25 * 60` — monotone non-decreasing in distance, equal to
0 at distance 0, with no integer rounding, no traffic-factor input, and no
1-minute floor. -/
theorem estimated_duration_monotone_and_zero :
    (∀ d1 d2 : ℚ, d1 ≤ d2 → estimated_duration d1 ≤ estimated_duration d2) ∧
      estimated_duration 0 = 0 := by
  constructor
  · intro d1 d2 h
    unfold estimated_duration
    linarith
  · norm_num [estimated_duration]

/-- Witness for C8 amended at distances 1 ≤ 2. -/
theorem estimated_duration_monotone_and_zero_witness :
    estimated_duration 1 ≤ estimated_duration 2 :=
  estimated_duration_monotone_and_zero.1 1 2 (by norm_num)

/-- The coordinate fields of the JSON body of a `/predict` request
(src/app.py lines 133-136); `none` models an omitted field, for which
`data.get(key, 0)` substitutes the default 0. -/
structure PredictRequestData where
  pickup_lat : Option ℚ
  pickup_lng : Option ℚ
  dropoff_lat : Option ℚ
  dropoff_lng : Option ℚ

/-- The global market-condition state read by the `/predict` endpoint
(src/app.py lines 163-166). -/
structure AppConditions where
  current_demand : ℚ
  current_supply : ℚ
  weather_conditions : String
  traffic_conditions : String

/-- The hour-to-time-of-day classification of the `/predict` endpoint
(src/app.py lines 150-157). -/
def time_of_day_of_hour (hour : ℕ) : String :=
  if (7 ≤ hour ∧ hour ≤ 9) ∨ (17 ≤ hour ∧ hour ≤ 19) then "rush_hour"
  else if 22 ≤ hour ∨ hour ≤ 6 then "night"
  else if 6 < hour ∧ hour < 7 then "early_morning"
  else "day"

/-- The JSON fields of a successful `/predict` response
(src/app.py lines 170-182, condensed to the numeric payload). -/
structure PredictResponse where
  success : Bool
  predicted_price : ℚ
  distance_miles : ℚ
  estimated_duration : ℚ
  surge_multiplier : ℚ

/-- The `/predict` endpoint `predict_price` route of src/app.py
(lines 126-185).  The geodesic distance computation is the external
`geopy.distance.geodesic` call, passed in as the function `dist`.
Missing coordinates default to 0 via `data.get(key, 0)`; the endpoint
reads the market globals, prices the trip and answers `success: True`. -/
def predict_endpoint (dist : ℚ → ℚ → ℚ → ℚ → ℚ) (cond : AppConditions)
    (p : PricePredictor) (hour : ℕ) (data : PredictRequestData) : PredictResponse :=
  let plat := data.pickup_lat.getD 0
  let plng := data.pickup_lng.getD 0
  let dlat := data.dropoff_lat.getD 0
  let dlng := data.dropoff_lng.getD 0
  let d := dist plat plng dlat dlng
  let est := estimated_duration d
  let res := predict_price p d est cond.current_demand cond.current_supply
    cond.weather_conditions cond.traffic_conditions (time_of_day_of_hour hour)
  { success := true
    predicted_price := res.1
    distance_miles := round2 d
    estimated_duration := round1 est
    surge_multiplier := round2 res.2.surge_multiplier }

/-- Replacing each omitted coordinate by an explicit 0.0, the default that
`data.get(key, 0)` supplies. -/
def fill_defaults (d : PredictRequestData) : PredictRequestData :=
  ⟨some (d.pickup_lat.getD 0), some (d.pickup_lng.getD 0),
   some (d.dropoff_lat.getD 0), some (d.dropoff_lng.getD 0)⟩

/-- C10: if the JSON body omits any of the coordinate fields, the endpoint
behaves exactly as if that field had been supplied as 0.0, and still
returns a successful quote (`success = true`) rather than rejecting the
request. -/
theorem missing_coordinates_default_to_zero_and_succeed
    (dist : ℚ → ℚ → ℚ → ℚ → ℚ) (cond : AppConditions) (p : PricePredictor)
    (hour : ℕ) (data : PredictRequestData) :
    predict_endpoint dist cond p hour data =
        predict_endpoint dist cond p hour (fill_defaults data) ∧
      (predict_endpoint dist cond p hour data).success = true := by
  obtain ⟨a, b, c, d⟩ := data
  cases a <;> cases b <;> cases c <;> cases d <;> exact ⟨rfl, rfl⟩

/-- `math.radians(x)` as used by `haversine_distance`
(src/backend/main.py lines 34-36). -/
noncomputable def radians (x : ℝ) : ℝ := x * Real.pi / 180

/-- `math.atan2(y, x)` with the C convention, as called on line 39 of
src/backend/main.py. -/
noncomputable def atan2 (y x : ℝ) : ℝ :=
  if 0 < x then Real.arctan (y / x)
  else if x < 0 then
    (if 0 ≤ y then Real.arctan (y / x) + Real.pi
     else Real.arctan (y / x) - Real.pi)
  else
    (if 0 < y then Real.pi / 2
     else if y < 0 then -(Real.pi / 2)
     else 0)

/-- The intermediate `a` of `haversine_distance`
(src/backend/main.py line 38):
`sin(dphi/2)**2 + cos(phi1)*cos(phi2)*sin(dlambda/2)**2`. -/
noncomputable def hav_a (lat1 lon1 lat2 lon2 : ℝ) : ℝ :=
  Real.sin (radians (lat2 - lat1) / 2) ^ 2 +
    Real.cos (radians lat1) * Real.cos (radians lat2) *
      Real.sin (radians (lon2 - lon1) / 2) ^ 2

/-- `haversine_distance(lat1, lon1, lat2, lon2)` (src/backend/main.py
lines 31-41): Earth radius `R = 6371` km times
`c = 2 * atan2(sqrt(a), sqrt(1 - a))`. -/
noncomputable def haversine_distance (lat1 lon1 lat2 lon2 : ℝ) : ℝ :=
  6371 * (2 * atan2 (Real.sqrt (hav_a lat1 lon1 lat2 lon2))
    (Real.sqrt (1 - hav_a lat1 lon1 lat2 lon2)))

lemma radians_zero : radians 0 = 0 := by
  unfold radians
  ring

lemma hav_a_self (lat lon : ℝ) : hav_a lat lon lat lon = 0 := by
  unfold hav_a
  rw [sub_self, sub_self, radians_zero]
  simp

lemma hav_a_symm (lat1 lon1 lat2 lon2 : ℝ) :
    hav_a lat2 lon2 lat1 lon1 = hav_a lat1 lon1 lat2 lon2 := by
  unfold hav_a
  have hlat : radians (lat1 - lat2) = -(radians (lat2 - lat1)) := by
    unfold radians; ring
  have hlon : radians (lon1 - lon2) = -(radians (lon2 - lon1)) := by
    unfold radians; ring
  rw [hlat, hlon]
  rw [show -(radians (lat2 - lat1)) / 2 = -(radians (lat2 - lat1) / 2) by ring]
  rw [show -(radians (lon2 - lon1)) / 2 = -(radians (lon2 - lon1) / 2) by ring]
  rw [Real.sin_neg, Real.sin_neg, neg_sq, neg_sq]
  ring

lemma atan2_zero_one : atan2 0 1 = 0 := by
  unfold atan2
  rw [if_pos (by norm_num : (0:ℝ) < 1)]
  simp

/-- C9: the Haversine distance of src/backend/main.py (Earth radius
6371 km) from any point to itself is exactly 0, and it is exactly
symmetric: `distance(A, B) = distance(B, A)` for all pairs of points
(modelling floats as reals, so within any floating-point tolerance). -/
theorem haversine_self_zero_and_symm :
    (∀ lat lon : ℝ, haversine_distance lat lon lat lon = 0) ∧
      ∀ lat1 lon1 lat2 lon2 : ℝ,
        haversine_distance lat1 lon1 lat2 lon2 =
          haversine_distance lat2 lon2 lat1 lon1 := by
  constructor
  · intro lat lon
    unfold haversine_distance
    rw [hav_a_self]
    simp [atan2_zero_one]
  · intro lat1 lon1 lat2 lon2
    unfold haversine_distance
    rw [hav_a_symm lat1 lon1 lat2 lon2]

/-- A `FareRequest` of src/backend/main.py (lines 8-14), with the hour
already extracted from `pickup_datetime` (or `utcnow`) as on lines 46-49. -/
structure FareRequest where
  pickup_lat : ℝ
  pickup_lon : ℝ
  dropoff_lat : ℝ
  dropoff_lon : ℝ
  passenger_count : ℤ
  hour_of_day : ℤ

/-- `build_feature_vector(req)` (src/backend/main.py lines 44-50): the
Haversine distance followed by the hour of day and passenger count. -/
noncomputable def build_feature_vector (req : FareRequest) : List ℝ :=
  [haversine_distance req.pickup_lat req.pickup_lon req.dropoff_lat req.dropoff_lon,
   (req.hour_of_day : ℝ), (req.passenger_count : ℝ)]

/-- Python `round(x, 2)` on the real-number model of floats. -/
noncomputable def round2R (x : ℝ) : ℝ := ((round (x * 100) : ℤ) : ℝ) / 100

/-- Result of the `/predict` route of src/backend/main.py: either a fare
response or an `HTTPException` with a status code and detail string. -/
inductive FareResult where
  | ok (predicted_fare : ℝ)
  | httpError (status : ℕ) (detail : String)

/-- Whether a `FareResult` is a successful fare response. -/
def FareResult.isOk : FareResult → Bool
  | .ok _ => true
  | .httpError _ _ => false

/-- `predict_fare(req)` (src/backend/main.py lines 53-61).  The loaded
regression model is the function `model` (`none` when the model file was
missing at startup).  The body performs NO validation of the request's
coordinates: its only error path is the missing-model 503. -/
noncomputable def predict_fare (model : Option (List ℝ → ℝ)) (req : FareRequest) : FareResult :=
  match model with
  | none => .httpError 503 "Model not available. Train the model first."
  | some m => .ok (round2R (m (build_feature_vector req)))

/-- C6 counterexample: a request whose pickup latitude is 100 — outside
[-90, 90] — is NOT rejected: with a model loaded, `predict_fare` computes
the Haversine distance on the raw values and returns a successful quote.
No `InvalidGeometry` (or any other validation) error exists in the code. -/
theorem out_of_range_latitude_is_priced :
    (predict_fare (some fun _ => 10) ⟨100, 0, 0, 0, 1, 0⟩).isOk = true := rfl

/-- C6 amended: the pricing endpoints perform no coordinate validation.
For EVERY request — any latitudes and longitudes whatsoever — the backend's
`predict_fare` succeeds whenever a model is loaded, returning the rounded
model output on the Haversine feature vector; the only failure it can
report is the missing-model 503, independent of the coordinates. -/
theorem predict_fare_never_validates_geometry
    (m : List ℝ → ℝ) (req : FareRequest) :
    predict_fare (some m) req = .ok (round2R (m (build_feature_vector req))) ∧
      predict_fare none req =
        .httpError 503 "Model not available. Train the model first." :=
  ⟨rfl, rfl⟩
